import Mathlib

/-!
Shallow embedding of the request layer of the prometheus gravel gateway
(`src/routes.rs`).  The aggregation engine (`aggregator.rs`) and the cluster
topology (`clustering.rs`) are not part of the visible source; the embedding
takes them as abstract parameters (`pam`, `ClusterConf`) exactly where
`routes.rs` calls into them, and the network transport is an oracle
`net : ForwardRequest → TransportResult`.
-/

/-- A byte, modelled as a natural number (values of interest are < 256). -/
abbrev Byte := Nat

/-- The HTTP POST that `forward_to_peer` issues via `reqwest`:
the target URL and the raw request body. -/
structure ForwardRequest where
  url : String
  body : List Byte
deriving DecidableEq, Repr

/-- Outcome of one HTTP round-trip to a peer: a response with a status code,
or a transport error with `reqwest`'s error message. -/
inductive TransportResult where
  | ok (status : Nat)
  | err (msg : String)
deriving DecidableEq, Repr

/-- The error enum of `routes.rs` (`GravelError`). -/
inductive GravelError where
  | Error (msg : String)
  | AuthError
  | AggregationError (err : String)
deriving DecidableEq, Repr

/-- `reqwest::StatusCode::is_success`: 2xx. -/
def isSuccessStatus (s : Nat) : Bool := 200 ≤ s && s < 300

/-- Rust `str::split` with a one-character separator: splits `cs` at every
occurrence of `sep`; the empty input yields `[""]`, and adjacent or trailing
separators yield empty segments, as in Rust. -/
def splitSepAux (sep : Char) : List Char → List Char → List String
  | [], acc => [String.mk acc.reverse]
  | c :: rest, acc =>
    if c = sep then String.mk acc.reverse :: splitSepAux sep rest []
    else splitSepAux sep rest (c :: acc)

/-- `url_tail.as_str().split("/")` from `ingest_metrics`. -/
def splitSlash (s : String) : List String := splitSepAux '/' s.data []

/-- The label-extraction loop of `ingest_metrics` (routes.rs lines 99-111):
take a name segment, stop if it is empty, pair it with the next segment
(or `""` when exhausted), repeat. -/
def extractLoop : List String → List (String × String)
  | [] => []
  | [n] => if n = "" then [] else [(n, "")]
  | n :: v :: rest => if n = "" then [] else (n, v) :: extractLoop rest

/-- The extra-label set `ingest_metrics` derives from the URL path suffix. -/
def extractLabels (suffix : String) : List (String × String) :=
  extractLoop (splitSlash suffix)

/-- `HashMap::get` on the label set built by repeated `HashMap::insert`:
the last inserted binding for a key wins. -/
def lookupLS (ls : List (String × String)) (k : String) : Option String :=
  (ls.reverse.find? (fun p => p.1 == k)).map Prod.snd

/-- Modelled from the spec: the extraction the claim describes — split the
suffix into segments and pair each name with the following value, a trailing
unpaired name getting the empty string value, with no other special case. -/
def pairSegments : List String → List (String × String)
  | [] => []
  | [n] => [(n, "")]
  | n :: v :: rest => (n, v) :: pairSegments rest

/-- Modelled from the spec: the LabelSet the claim ascribes to a suffix. -/
def specPairLabels (suffix : String) : List (String × String) :=
  pairSegments (splitSlash suffix)

/-- No name-position segment is empty (the side condition under which the
code's extraction and the spec's pairing coincide). -/
def noEmptyName : List String → Bool
  | [] => true
  | [n] => n ≠ ""
  | n :: _ :: rest => n ≠ "" && noEmptyName rest

/-- A UTF-8 continuation byte (`0x80..=0xBF`). -/
def isCont (b : Byte) : Bool := 0x80 ≤ b && b ≤ 0xBF

/-- UTF-8 decoding of a byte sequence into scalar values, per RFC 3629 /
Unicode Table 3-7 (the validity notion of Rust's `String::from_utf8`):
rejects overlong encodings, surrogates, values above `0x10FFFF`, and
truncated sequences. -/
def utf8Decode : List Byte → Option (List Nat)
  | [] => some []
  | b :: rest =>
    if b ≤ 0x7F then (utf8Decode rest).map (fun cs => b :: cs)
    else if 0xC2 ≤ b && b ≤ 0xDF then
      match rest with
      | c1 :: rest1 =>
        if isCont c1 then
          (utf8Decode rest1).map (fun cs => ((b - 0xC0) * 0x40 + (c1 - 0x80)) :: cs)
        else none
      | [] => none
    else if 0xE0 ≤ b && b ≤ 0xEF then
      match rest with
      | c1 :: c2 :: rest2 =>
        if (if b = 0xE0 then 0xA0 else 0x80) ≤ c1 &&
            c1 ≤ (if b = 0xED then 0x9F else 0xBF) && isCont c2 then
          (utf8Decode rest2).map
            (fun cs => ((b - 0xE0) * 0x1000 + (c1 - 0x80) * 0x40 + (c2 - 0x80)) :: cs)
        else none
      | _ => none
    else if 0xF0 ≤ b && b ≤ 0xF4 then
      match rest with
      | c1 :: c2 :: c3 :: rest3 =>
        if (if b = 0xF0 then 0x90 else 0x80) ≤ c1 &&
            c1 ≤ (if b = 0xF4 then 0x8F else 0xBF) && isCont c2 && isCont c3 then
          (utf8Decode rest3).map
            (fun cs => ((b - 0xF0) * 0x40000 + (c1 - 0x80) * 0x1000 +
              (c2 - 0x80) * 0x40 + (c3 - 0x80)) :: cs)
        else none
      | _ => none
    else none

/-- `String::from_utf8(data.to_vec())` (routes.rs lines 126-131): the body
bytes decoded as a UTF-8 string, or `none` when invalid. -/
def utf8ToString (bs : List Byte) : Option String :=
  (utf8Decode bs).map (fun cps => String.mk (cps.map Char.ofNat))

/-- The clustering interface `routes.rs` consumes (`ClusterConfig` lives in
the clustering module, outside the visible source): key-to-peer resolution
and the self test. -/
structure ClusterConf where
  getPeerForKey : String → Option String
  isSelfPeer : String → Bool

/-- `forward_to_peer` (routes.rs lines 76-88): builds one POST to
`peer + "/" + url_tail` with the raw body, and maps the transport outcome:
2xx response → `Ok`, other response → `GravelError::Error` with the
hard-coded message of line 84, transport error → `GravelError::Error`
with the transport's message.  Returns the request it sent alongside the
result so that theorems can speak about what was put on the wire. -/
def forward_to_peer (net : ForwardRequest → TransportResult)
    (peer : String) (data : List Byte) (urlTail : String) :
    ForwardRequest × Except GravelError Unit :=
  let req : ForwardRequest := { url := peer ++ "/" ++ urlTail, body := data }
  match net req with
  | .ok status =>
    if isSuccessStatus status then (req, .ok ())
    else (req, .error (.Error ("Failed to forward to peer. Got status: " ++ toString (200 : Nat))))
  | .err e => (req, .error (.Error e))

/-- Result of one `ingest_metrics` call: the reply to the client, the store
after the call, the forwarding requests issued (instrumentation), and the
routing key handed to `get_peer_for_key`, when clustering consulted it
(instrumentation). -/
structure IngestOutcome (σ : Type) where
  reply : Except GravelError String
  store : σ
  sent : List ForwardRequest
  routedKey : Option String

/-- The local tail of `ingest_metrics` (routes.rs lines 126-136): decode the
body as UTF-8 and hand it to `Aggregator::parse_and_merge` (abstract here as
`pam`, since the aggregator module is outside the visible source). -/
def ingestLocal {σ : Type}
    (pam : String → List (String × String) → σ → Except String σ)
    (labels : List (String × String)) (data : List Byte) (store : σ)
    (rk : Option String) : IngestOutcome σ :=
  match utf8ToString data with
  | none =>
    { reply := .error (.Error "Invalid UTF-8 in body"), store := store,
      sent := [], routedKey := rk }
  | some body =>
    match pam body labels store with
    | .ok s2 => { reply := .ok "", store := s2, sent := [], routedKey := rk }
    | .error e =>
      { reply := .error (.AggregationError e), store := store,
        sent := [], routedKey := rk }

/-- `ingest_metrics` (routes.rs lines 93-137): extract the extra labels from
the path suffix; when clustering is configured, resolve the owner of the
"job" key and forward the raw bytes when the owner is a non-self peer;
otherwise decode the body and merge locally. -/
def ingest_metrics {σ : Type} (net : ForwardRequest → TransportResult)
    (pam : String → List (String × String) → σ → Except String σ)
    (conf : Option ClusterConf) (data : List Byte) (urlTail : String)
    (store : σ) : IngestOutcome σ :=
  let labels := extractLabels urlTail
  match conf with
  | some cc =>
    let job := (lookupLS labels "job").getD ""
    match cc.getPeerForKey job with
    | some peer =>
      if cc.isSelfPeer peer then ingestLocal pam labels data store (some job)
      else
        let fr := forward_to_peer net peer data urlTail
        { reply := fr.2.map (fun _ => ""), store := store,
          sent := [fr.1], routedKey := some job }
    | none => ingestLocal pam labels data store (some job)
  | none => ingestLocal pam labels data store none

/-- A push request as the warp filter chain of `get_routes` sees it:
the optional `authorization` header, the raw body, and the path tail. -/
structure PushRequest where
  authHeader : Option String
  body : List Byte
  urlTail : String

/-- The credential the `auth` filter checks: the `authorization` header, or
the empty string from `default_auth` when the header is absent
(routes.rs lines 34-41). -/
def credentialOf (r : PushRequest) : String := r.authHeader.getD ""

/-- The POST /metrics route of `get_routes` (routes.rs lines 43-50): the
`auth` filter (routes.rs lines 25-31) runs first and rejects with
`GravelError::AuthError` unless the authenticator accepts the credential;
only then does `ingest_metrics` run. -/
def handle_push {σ : Type} (authr : String → Bool)
    (net : ForwardRequest → TransportResult)
    (pam : String → List (String × String) → σ → Except String σ)
    (conf : Option ClusterConf) (r : PushRequest) (store : σ) :
    IngestOutcome σ :=
  if authr (credentialOf r) then
    ingest_metrics net pam conf r.body r.urlTail store
  else
    { reply := .error .AuthError, store := store, sent := [], routedKey := none }

/-- `get_metrics` (routes.rs lines 139-141): the core just renders the store
to a string (`agg.to_string()`); `render` abstracts the aggregator's
serializer, which is outside the visible source. -/
def get_metrics {σ : Type} (render : σ → String) (store : σ) : String :=
  render store

/-- A scrape response: body text plus the Content-Type header value. -/
structure ScrapeReply where
  body : String
  contentType : Option String
deriving DecidableEq, Repr

/-- The GET /metrics route of `get_routes` (routes.rs lines 52-59): the body
comes from `get_metrics` and the request layer attaches the static
`Content-Type: text/plain; version=0.0.4` header to every reply. -/
def handle_scrape {σ : Type} (render : σ → String) (store : σ) : ScrapeReply :=
  { body := get_metrics render store,
    contentType := some "text/plain; version=0.0.4" }

/-- Whether `ingest_metrics` handles a request locally: no clustering, no
peer resolved for the routing key, or the resolved peer is self. -/
def localRoute (conf : Option ClusterConf) (urlTail : String) : Bool :=
  match conf with
  | none => true
  | some cc =>
    match cc.getPeerForKey ((lookupLS (extractLabels urlTail) "job").getD "") with
    | none => true
    | some p => cc.isSelfPeer p

/-- The path suffix a receiving peer recovers from a forwarded URL: the
characters after `peer` and the separating slash. -/
def tailAfterPeer (peer : String) (url : String) : String :=
  String.mk (url.data.drop (peer.data.length + 1))

theorem extractLoop_eq_pairSegments :
    ∀ segs : List String, noEmptyName segs = true →
      extractLoop segs = pairSegments segs
  | [], _ => rfl
  | [n], h => by
    simp only [noEmptyName, decide_eq_true_eq] at h
    simp [extractLoop, pairSegments, h]
  | n :: v :: rest, h => by
    simp only [noEmptyName, Bool.and_eq_true, decide_eq_true_eq] at h
    simp [extractLoop, pairSegments, h.1,
      extractLoop_eq_pairSegments rest h.2]

theorem ingestLocal_rk_irrel {σ : Type}
    (pam : String → List (String × String) → σ → Except String σ)
    (labels : List (String × String)) (data : List Byte) (store : σ)
    (rk1 rk2 : Option String) :
    (ingestLocal pam labels data store rk1).reply
        = (ingestLocal pam labels data store rk2).reply ∧
    (ingestLocal pam labels data store rk1).store
        = (ingestLocal pam labels data store rk2).store ∧
    (ingestLocal pam labels data store rk1).sent
        = (ingestLocal pam labels data store rk2).sent := by
  rcases hu : utf8ToString data with _ | body
  · simp [ingestLocal, hu]
  · rcases hm : pam body labels store with s2 | e <;>
      simp [ingestLocal, hu, hm]

theorem tailAfterPeer_append (peer suffix : String) :
    tailAfterPeer peer (peer ++ "/" ++ suffix) = suffix := by
  show String.mk (((peer ++ "/" ++ suffix).data).drop (peer.data.length + 1))
      = suffix
  have hdata : (peer ++ "/" ++ suffix).data
      = (peer.data ++ ['/']) ++ suffix.data := by
    simp [String.data_append]
  have hlen : (peer.data ++ ['/']).length = peer.data.length + 1 := by
    simp
  rw [hdata, ← hlen, List.drop_left]

/-- Claim C1 (amended): for every URL path suffix in which no name-position
segment is empty, the extraction in `ingest_metrics` yields the LabelSet
pairing each name segment with the following value segment, a trailing
unpaired segment getting the empty string value; when a name-position
segment is empty, extraction stops there and discards the rest. -/
theorem extract_labels_pairs_segments (suffix : String)
    (h : noEmptyName (splitSlash suffix) = true) (k : String) :
    lookupLS (extractLabels suffix) k = lookupLS (specPairLabels suffix) k := by
  unfold extractLabels specPairLabels
  rw [extractLoop_eq_pairSegments _ h]

theorem extract_labels_pairs_segments_witness :
    noEmptyName (splitSlash "job/foo/instance/i1") = true ∧
    lookupLS (extractLabels "job/foo/instance/i1") "job"
      = lookupLS (specPairLabels "job/foo/instance/i1") "job" :=
  ⟨by decide, extract_labels_pairs_segments "job/foo/instance/i1" (by decide) "job"⟩

theorem extract_labels_claim_counterexample :
    lookupLS (extractLabels "job/foo/") "" = none ∧
    lookupLS (specPairLabels "job/foo/") "" = some "" := by
  constructor <;> decide

theorem forward_to_peer_fst (net : ForwardRequest → TransportResult)
    (peer : String) (data : List Byte) (urlTail : String) :
    (forward_to_peer net peer data urlTail).1
      = { url := peer ++ "/" ++ urlTail, body := data } := by
  rcases h : net { url := peer ++ "/" ++ urlTail, body := data } with s | e
  · rcases hS : isSuccessStatus s with _ | _ <;> simp [forward_to_peer, h, hS]
  · simp [forward_to_peer, h]

theorem ingestLocal_routedKey {σ : Type}
    (pam : String → List (String × String) → σ → Except String σ)
    (labels : List (String × String)) (data : List Byte) (store : σ)
    (rk : Option String) :
    (ingestLocal pam labels data store rk).routedKey = rk := by
  rcases hu : utf8ToString data with _ | body
  · simp [ingestLocal, hu]
  · rcases hm : pam body labels store with s2 | e <;> simp [ingestLocal, hu, hm]

/-- Claim C2: a push routed to a non-self peer is sent as one POST carrying
the raw body bytes unchanged, to the peer's address with the original path
suffix appended, so the suffix the peer recovers — and hence the label set
it re-derives — is exactly the original one. -/
theorem forward_sends_raw_body_same_suffix {σ : Type}
    (net : ForwardRequest → TransportResult)
    (pam : String → List (String × String) → σ → Except String σ)
    (cc : ClusterConf) (data : List Byte) (tail : String) (store : σ)
    (peer : String)
    (hp : cc.getPeerForKey ((lookupLS (extractLabels tail) "job").getD "")
      = some peer)
    (hs : cc.isSelfPeer peer = false) :
    (ingest_metrics net pam (some cc) data tail store).sent
      = [{ url := peer ++ "/" ++ tail, body := data }] ∧
    tailAfterPeer peer (peer ++ "/" ++ tail) = tail ∧
    extractLabels (tailAfterPeer peer (peer ++ "/" ++ tail))
      = extractLabels tail := by
  refine ⟨?_, tailAfterPeer_append peer tail, ?_⟩
  · simp [ingest_metrics, hp, hs, forward_to_peer_fst]
  · rw [tailAfterPeer_append]

theorem forward_sends_raw_body_same_suffix_witness :
    ({ getPeerForKey := fun _ => some "http://peer:4278",
       isSelfPeer := fun _ => false } : ClusterConf).getPeerForKey
        ((lookupLS (extractLabels "job/foo") "job").getD "")
      = some "http://peer:4278" ∧
    ({ getPeerForKey := fun _ => some "http://peer:4278",
       isSelfPeer := fun _ => false } : ClusterConf).isSelfPeer
        "http://peer:4278" = false ∧
    ((ingest_metrics (σ := Nat) (fun _ => .ok 200)
        (fun _ _ s => .ok (s + 1))
        (some { getPeerForKey := fun _ => some "http://peer:4278",
                isSelfPeer := fun _ => false })
        [104, 105] "job/foo" 0).sent
      = [{ url := "http://peer:4278" ++ "/" ++ "job/foo", body := [104, 105] }] ∧
    tailAfterPeer "http://peer:4278" ("http://peer:4278" ++ "/" ++ "job/foo")
      = "job/foo" ∧
    extractLabels
        (tailAfterPeer "http://peer:4278" ("http://peer:4278" ++ "/" ++ "job/foo"))
      = extractLabels "job/foo") :=
  ⟨rfl, rfl,
    forward_sends_raw_body_same_suffix (fun _ => .ok 200)
      (fun _ _ s => .ok (s + 1))
      { getPeerForKey := fun _ => some "http://peer:4278",
        isSelfPeer := fun _ => false }
      [104, 105] "job/foo" 0 "http://peer:4278" rfl rfl⟩

/-- Claim C3 (code behavior at the failing input): `forward_to_peer` returns
`Ok` exactly when the transport delivers a 2xx response, but on a non-success
response the error message always reports status 200 — the literal in the
`format!` call — rather than the status actually received, here 503. -/
theorem forward_ok_iff_success_but_status_misreported
    (peer : String) (data : List Byte) (tail : String) :
    (∀ net : ForwardRequest → TransportResult,
      ((forward_to_peer net peer data tail).2 = Except.ok () ↔
        ∃ s, net { url := peer ++ "/" ++ tail, body := data }
            = TransportResult.ok s ∧ isSuccessStatus s = true)) ∧
    (forward_to_peer (fun _ => TransportResult.ok 503) peer data tail).2
      = Except.error
          (GravelError.Error "Failed to forward to peer. Got status: 200") := by
  constructor
  · intro net
    rcases h : net { url := peer ++ "/" ++ tail, body := data } with s | e
    · rcases hS : isSuccessStatus s with _ | _ <;>
        simp [forward_to_peer, h, hS]
    · simp [forward_to_peer, h]
  · rfl

/-- Claim C4: when the resolved owner is a non-self peer, the local
aggregator is never invoked (the outcome is the same for every aggregator),
the raw bytes are forwarded in a single request, the local store is
unchanged, and a forwarding failure fails the request with that very error
instead of falling back to a local merge. -/
theorem forward_leaves_store_unchanged {σ : Type}
    (net : ForwardRequest → TransportResult)
    (pam : String → List (String × String) → σ → Except String σ)
    (cc : ClusterConf) (data : List Byte) (tail : String) (store : σ)
    (peer : String)
    (hp : cc.getPeerForKey ((lookupLS (extractLabels tail) "job").getD "")
      = some peer)
    (hs : cc.isSelfPeer peer = false) :
    (ingest_metrics net pam (some cc) data tail store).store = store ∧
    (∀ pam' : String → List (String × String) → σ → Except String σ,
      ingest_metrics net pam' (some cc) data tail store
        = ingest_metrics net pam (some cc) data tail store) ∧
    (ingest_metrics net pam (some cc) data tail store).sent
      = [{ url := peer ++ "/" ++ tail, body := data }] ∧
    (∀ e, (forward_to_peer net peer data tail).2 = Except.error e →
      (ingest_metrics net pam (some cc) data tail store).reply
        = Except.error e) := by
  refine ⟨?_, ?_, ?_, ?_⟩
  · simp [ingest_metrics, hp, hs]
  · intro pam'
    simp [ingest_metrics, hp, hs]
  · simp [ingest_metrics, hp, hs, forward_to_peer_fst]
  · intro e he
    simp [ingest_metrics, hp, hs, he, Except.map]

theorem forward_leaves_store_unchanged_witness :
    ({ getPeerForKey := fun _ => some "http://other:4278",
       isSelfPeer := fun _ => false } : ClusterConf).getPeerForKey
        ((lookupLS (extractLabels "job/foo") "job").getD "")
      = some "http://other:4278" ∧
    ({ getPeerForKey := fun _ => some "http://other:4278",
       isSelfPeer := fun _ => false } : ClusterConf).isSelfPeer
        "http://other:4278" = false ∧
    ((ingest_metrics (σ := Nat) (fun _ => .err "connection refused")
          (fun _ _ s => .ok (s + 1))
          (some { getPeerForKey := fun _ => some "http://other:4278",
                  isSelfPeer := fun _ => false })
          [104, 105] "job/foo" 7).store = 7 ∧
      (∀ pam' : String → List (String × String) → Nat → Except String Nat,
        ingest_metrics (fun _ => .err "connection refused") pam'
            (some { getPeerForKey := fun _ => some "http://other:4278",
                    isSelfPeer := fun _ => false })
            [104, 105] "job/foo" 7
          = ingest_metrics (fun _ => .err "connection refused")
              (fun _ _ s => .ok (s + 1))
              (some { getPeerForKey := fun _ => some "http://other:4278",
                      isSelfPeer := fun _ => false })
              [104, 105] "job/foo" 7) ∧
      (ingest_metrics (σ := Nat) (fun _ => .err "connection refused")
          (fun _ _ s => .ok (s + 1))
          (some { getPeerForKey := fun _ => some "http://other:4278",
                  isSelfPeer := fun _ => false })
          [104, 105] "job/foo" 7).sent
        = [{ url := "http://other:4278" ++ "/" ++ "job/foo",
             body := [104, 105] }] ∧
      (∀ e, (forward_to_peer (fun _ => .err "connection refused")
              "http://other:4278" [104, 105] "job/foo").2 = Except.error e →
        (ingest_metrics (σ := Nat) (fun _ => .err "connection refused")
            (fun _ _ s => .ok (s + 1))
            (some { getPeerForKey := fun _ => some "http://other:4278",
                    isSelfPeer := fun _ => false })
            [104, 105] "job/foo" 7).reply = Except.error e)) :=
  ⟨rfl, rfl,
    forward_leaves_store_unchanged (fun _ => .err "connection refused")
      (fun _ _ s => .ok (s + 1))
      { getPeerForKey := fun _ => some "http://other:4278",
        isSelfPeer := fun _ => false }
      [104, 105] "job/foo" 7 "http://other:4278" rfl rfl⟩

/-- Claim C5: whenever clustering is configured, the key handed to
`get_peer_for_key` is the value of the "job" label of the extracted
extra-label set, or the empty string when there is no "job" label. -/
theorem routing_key_is_job_label {σ : Type}
    (net : ForwardRequest → TransportResult)
    (pam : String → List (String × String) → σ → Except String σ)
    (cc : ClusterConf) (data : List Byte) (tail : String) (store : σ) :
    (ingest_metrics net pam (some cc) data tail store).routedKey
      = some ((lookupLS (extractLabels tail) "job").getD "") := by
  rcases hp : cc.getPeerForKey ((lookupLS (extractLabels tail) "job").getD "")
      with _ | peer
  · simp [ingest_metrics, hp, ingestLocal_routedKey]
  · rcases hsel : cc.isSelfPeer peer with _ | _
    · simp [ingest_metrics, hp, hsel]
    · simp [ingest_metrics, hp, hsel, ingestLocal_routedKey]

/-- Claim C6: a push whose credential the authenticator rejects is answered
with `AuthError` and nothing else happens: the store is untouched, nothing
is forwarded, no routing key is consulted, and the outcome is the same for
every aggregator, transport, and cluster configuration. -/
theorem auth_failure_rejects_before_core {σ : Type} (authr : String → Bool)
    (net : ForwardRequest → TransportResult)
    (pam : String → List (String × String) → σ → Except String σ)
    (conf : Option ClusterConf) (r : PushRequest) (store : σ)
    (h : authr (credentialOf r) = false) :
    handle_push authr net pam conf r store
      = { reply := Except.error GravelError.AuthError, store := store,
          sent := [], routedKey := none } ∧
    (∀ (net' : ForwardRequest → TransportResult)
        (pam' : String → List (String × String) → σ → Except String σ)
        (conf' : Option ClusterConf),
      handle_push authr net' pam' conf' r store
        = handle_push authr net pam conf r store) := by
  constructor
  · simp [handle_push, h]
  · intro net' pam' conf'
    simp [handle_push, h]

theorem auth_failure_rejects_before_core_witness :
    ((fun c => c == "secret") (credentialOf
        { authHeader := some "wrong", body := [104], urlTail := "job/foo" })
      = false) ∧
    (handle_push (σ := Nat) (fun c => c == "secret") (fun _ => .ok 200)
        (fun _ _ s => .ok (s + 1)) none
        { authHeader := some "wrong", body := [104], urlTail := "job/foo" } 5
      = { reply := Except.error GravelError.AuthError, store := 5,
          sent := [], routedKey := none } ∧
    (∀ (net' : ForwardRequest → TransportResult)
        (pam' : String → List (String × String) → Nat → Except String Nat)
        (conf' : Option ClusterConf),
      handle_push (fun c => c == "secret") net' pam' conf'
          { authHeader := some "wrong", body := [104], urlTail := "job/foo" } 5
        = handle_push (fun c => c == "secret") (fun _ => .ok 200)
            (fun _ _ s => .ok (s + 1)) none
            { authHeader := some "wrong", body := [104], urlTail := "job/foo" }
            5)) :=
  ⟨rfl,
    auth_failure_rejects_before_core (fun c => c == "secret") (fun _ => .ok 200)
      (fun _ _ s => .ok (s + 1)) none
      { authHeader := some "wrong", body := [104], urlTail := "job/foo" } 5 rfl⟩

/-- Claim C7: every GET /metrics reply carries the Content-Type
`text/plain; version=0.0.4`, attached by the request layer, while its body
is exactly what the core's renderer produced. -/
theorem scrape_reply_content_type {σ : Type} (render : σ → String)
    (store : σ) :
    (handle_scrape render store).contentType
      = some "text/plain; version=0.0.4" ∧
    (handle_scrape render store).body = get_metrics render store :=
  ⟨rfl, rfl⟩

/-- Claim C8: a push without an `authorization` header is not rejected
outright — its credential is the empty string, so it proceeds to
`ingest_metrics` exactly when the authenticator accepts `""`, and is
rejected with `AuthError` exactly when it does not. -/
theorem missing_auth_header_uses_empty_credential {σ : Type}
    (authr : String → Bool) (net : ForwardRequest → TransportResult)
    (pam : String → List (String × String) → σ → Except String σ)
    (conf : Option ClusterConf) (r : PushRequest) (store : σ)
    (h : r.authHeader = none) :
    credentialOf r = "" ∧
    (authr "" = true →
      handle_push authr net pam conf r store
        = ingest_metrics net pam conf r.body r.urlTail store) ∧
    (authr "" = false →
      (handle_push authr net pam conf r store).reply
        = Except.error GravelError.AuthError) := by
  have hc : credentialOf r = "" := by simp [credentialOf, h]
  refine ⟨hc, fun ha => ?_, fun ha => ?_⟩
  · simp [handle_push, hc, ha]
  · simp [handle_push, hc, ha]

theorem missing_auth_header_uses_empty_credential_witness :
    ({ authHeader := none, body := [104], urlTail := "job/foo" }
        : PushRequest).authHeader = none ∧
    (credentialOf { authHeader := none, body := [104], urlTail := "job/foo" }
        = "" ∧
      ((fun c => c == "") "" = true →
        handle_push (σ := Nat) (fun c => c == "") (fun _ => .ok 200)
            (fun _ _ s => .ok (s + 1)) none
            { authHeader := none, body := [104], urlTail := "job/foo" } 5
          = ingest_metrics (fun _ => .ok 200) (fun _ _ s => .ok (s + 1)) none
              [104] "job/foo" 5) ∧
      ((fun c => c == "") "" = false →
        (handle_push (σ := Nat) (fun c => c == "") (fun _ => .ok 200)
            (fun _ _ s => .ok (s + 1)) none
            { authHeader := none, body := [104], urlTail := "job/foo" } 5).reply
          = Except.error GravelError.AuthError)) :=
  ⟨rfl,
    missing_auth_header_uses_empty_credential (fun c => c == "")
      (fun _ => .ok 200) (fun _ _ s => .ok (s + 1)) none
      { authHeader := none, body := [104], urlTail := "job/foo" } 5 rfl⟩

/-- Claim C9: a locally handled push whose body is not valid UTF-8 is
rejected with the "Invalid UTF-8 in body" error; the store is unchanged,
nothing is forwarded, and the aggregator is never consulted (the outcome is
the same for every aggregator). -/
theorem invalid_utf8_rejected_before_merge {σ : Type}
    (net : ForwardRequest → TransportResult)
    (pam : String → List (String × String) → σ → Except String σ)
    (conf : Option ClusterConf) (data : List Byte) (tail : String)
    (store : σ)
    (hl : localRoute conf tail = true) (hu : utf8ToString data = none) :
    (ingest_metrics net pam conf data tail store).reply
      = Except.error (GravelError.Error "Invalid UTF-8 in body") ∧
    (ingest_metrics net pam conf data tail store).store = store ∧
    (ingest_metrics net pam conf data tail store).sent = [] ∧
    (∀ pam' : String → List (String × String) → σ → Except String σ,
      ingest_metrics net pam' conf data tail store
        = ingest_metrics net pam conf data tail store) := by
  rcases conf with _ | cc
  · refine ⟨?_, ?_, ?_, fun pam' => ?_⟩ <;>
      simp [ingest_metrics, ingestLocal, hu]
  · rcases hp : cc.getPeerForKey ((lookupLS (extractLabels tail) "job").getD "")
        with _ | p
    · refine ⟨?_, ?_, ?_, fun pam' => ?_⟩ <;>
        simp [ingest_metrics, hp, ingestLocal, hu]
    · simp only [localRoute, hp] at hl
      refine ⟨?_, ?_, ?_, fun pam' => ?_⟩ <;>
        simp [ingest_metrics, hp, hl, ingestLocal, hu]

theorem invalid_utf8_rejected_before_merge_witness :
    localRoute none "job/foo" = true ∧ utf8ToString [255] = none ∧
    ((ingest_metrics (σ := Nat) (fun _ => .ok 200) (fun _ _ s => .ok (s + 1))
        none [255] "job/foo" 5).reply
      = Except.error (GravelError.Error "Invalid UTF-8 in body") ∧
    (ingest_metrics (σ := Nat) (fun _ => .ok 200) (fun _ _ s => .ok (s + 1))
        none [255] "job/foo" 5).store = 5 ∧
    (ingest_metrics (σ := Nat) (fun _ => .ok 200) (fun _ _ s => .ok (s + 1))
        none [255] "job/foo" 5).sent = [] ∧
    (∀ pam' : String → List (String × String) → Nat → Except String Nat,
      ingest_metrics (fun _ => .ok 200) pam' none [255] "job/foo" 5
        = ingest_metrics (fun _ => .ok 200) (fun _ _ s => .ok (s + 1)) none
            [255] "job/foo" 5)) :=
  ⟨rfl, by decide,
    invalid_utf8_rejected_before_merge (fun _ => .ok 200)
      (fun _ _ s => .ok (s + 1)) none [255] "job/foo" 5 rfl (by decide)⟩

/-- Claim C10: when clustering is configured but `get_peer_for_key` resolves
no peer for the routing key, the push is neither rejected nor forwarded:
its reply, its effect on the store, and the (empty) set of forwarded
requests are exactly those of the non-clustered run. -/
theorem missing_peer_applies_locally {σ : Type}
    (net : ForwardRequest → TransportResult)
    (pam : String → List (String × String) → σ → Except String σ)
    (cc : ClusterConf) (data : List Byte) (tail : String) (store : σ)
    (hp : cc.getPeerForKey ((lookupLS (extractLabels tail) "job").getD "")
      = none) :
    (ingest_metrics net pam (some cc) data tail store).reply
      = (ingest_metrics net pam none data tail store).reply ∧
    (ingest_metrics net pam (some cc) data tail store).store
      = (ingest_metrics net pam none data tail store).store ∧
    (ingest_metrics net pam (some cc) data tail store).sent
      = (ingest_metrics net pam none data tail store).sent := by
  have h := ingestLocal_rk_irrel pam (extractLabels tail) data store
    (some ((lookupLS (extractLabels tail) "job").getD "")) none
  refine ⟨?_, ?_, ?_⟩
  · simpa [ingest_metrics, hp] using h.1
  · simpa [ingest_metrics, hp] using h.2.1
  · simpa [ingest_metrics, hp] using h.2.2

theorem missing_peer_applies_locally_witness :
    ({ getPeerForKey := fun _ => none, isSelfPeer := fun _ => true }
        : ClusterConf).getPeerForKey
        ((lookupLS (extractLabels "job/foo") "job").getD "") = none ∧
    ((ingest_metrics (σ := Nat) (fun _ => .ok 200) (fun _ _ s => .ok (s + 1))
        (some { getPeerForKey := fun _ => none, isSelfPeer := fun _ => true })
        [104, 105] "job/foo" 5).reply
      = (ingest_metrics (σ := Nat) (fun _ => .ok 200)
          (fun _ _ s => .ok (s + 1)) none [104, 105] "job/foo" 5).reply ∧
    (ingest_metrics (σ := Nat) (fun _ => .ok 200) (fun _ _ s => .ok (s + 1))
        (some { getPeerForKey := fun _ => none, isSelfPeer := fun _ => true })
        [104, 105] "job/foo" 5).store
      = (ingest_metrics (σ := Nat) (fun _ => .ok 200)
          (fun _ _ s => .ok (s + 1)) none [104, 105] "job/foo" 5).store ∧
    (ingest_metrics (σ := Nat) (fun _ => .ok 200) (fun _ _ s => .ok (s + 1))
        (some { getPeerForKey := fun _ => none, isSelfPeer := fun _ => true })
        [104, 105] "job/foo" 5).sent
      = (ingest_metrics (σ := Nat) (fun _ => .ok 200)
          (fun _ _ s => .ok (s + 1)) none [104, 105] "job/foo" 5).sent) :=
  ⟨rfl,
    missing_peer_applies_locally (fun _ => .ok 200) (fun _ _ s => .ok (s + 1))
      { getPeerForKey := fun _ => none, isSelfPeer := fun _ => true }
      [104, 105] "job/foo" 5 rfl⟩
